import Mathlib

/-!
Shallow embedding of the SprintSummaryData dashboard's analysis engine
(`data_analyzer.py`), its configuration tables (`config.py`), and the
ID-batching and WIQL query construction of the REST client
(`azure_devops_client.py`).

Modelling conventions:
* a pandas DataFrame of work items is a `List WorkItem`;
* floating-point story points, percentages and scores are rationals (`ℚ`);
* timestamps are integers at day granularity (the code only ever compares
  timestamps and subtracts them into whole days);
* a Python dict return value that may be the empty dict `{}` is an
  `Option` of a record, with `none` standing for `{}`;
* pandas `groupby(key)` (default `sort=True`) visits the distinct keys in
  ascending lexicographic order; `sort_values(..., ascending=False)` and
  Python's `list.sort(reverse=True)` are modelled by an insertion sort on
  the "greater or equal" relation of the sort key.  Python's sort is
  stable; pandas' default quicksort is deterministic but leaves the order
  of equal keys unspecified, so facts proved about orderings below never
  depend on the relative order of equal sort keys except where the source
  (Python `list.sort`) guarantees stability.
-/

namespace SprintSummaryData

/-- Lexicographic comparison of strings by Unicode code point, the order
Python uses for `str` and hence the order of pandas `groupby` keys. -/
def strLeAux : List Char → List Char → Bool
  | [], _ => true
  | _ :: _, [] => false
  | c :: cs, d :: ds =>
    if c.toNat < d.toNat then true
    else if d.toNat < c.toNat then false
    else strLeAux cs ds

/-- String order used for pandas `groupby` key sorting. -/
def strLeB (a b : String) : Bool := strLeAux a.data b.data

/-- Propositional form of `strLeB`, for `List.insertionSort`. -/
def strLe (a b : String) : Prop := strLeB a b = true

instance : DecidableRel strLe := fun a b => inferInstanceAs (Decidable (strLeB a b = true))

/-- ASCII lower-casing of one character, as `str.lower` does on the ASCII
work-item type names this code matches against. -/
def lowerChar (c : Char) : Char :=
  if 65 ≤ c.toNat ∧ c.toNat ≤ 90 then Char.ofNat (c.toNat + 32) else c

/-- Check that `pat` occurs as a contiguous prefix of `l`. -/
def isPrefixB : List Char → List Char → Bool
  | [], _ => true
  | _ :: _, [] => false
  | c :: cs, d :: ds => (c == d) && isPrefixB cs ds

/-- Check that `pat` occurs as a contiguous sublist of `l`. -/
def isInfixB (pat : List Char) : List Char → Bool
  | [] => isPrefixB pat []
  | c :: cs => isPrefixB pat (c :: cs) || isInfixB pat cs

/-- Case-insensitive substring test: the model of
`Series.str.contains(pat, case=False, na=False)` for a literal pattern
with no regex metacharacters (the code only uses the pattern `'Bug'`). -/
def str_contains_ci (s pat : String) : Bool :=
  isInfixB (pat.data.map lowerChar) (s.data.map lowerChar)

/-- Raw work-item payload: the `fields` dict of one REST work item, after
JSON parsing.  `none` models a missing field (for `story_points` also an
explicit `null`, which the source's `or 0` coalesces the same way).
Timestamps are modelled as always present and parseable; `NaT`
propagation for unparseable dates is outside every claim. -/
structure RawWorkItem where
  id : Int
  title : Option String
  work_item_type : Option String
  state : Option String
  assigned_to : Option String
  created_date : Int
  changed_date : Int
  story_points : Option ℚ
  priority : Option Int
  tags : Option String
  area_path : Option String
  iteration_path : Option String
deriving DecidableEq

/-- One row of the analyzer's normalized DataFrame
(`SprintAnalyzer._create_dataframe`). -/
structure WorkItem where
  id : Int
  title : String
  work_item_type : String
  state : String
  assigned_to : String
  created_date : Int
  changed_date : Int
  story_points : ℚ
  priority : Int
  tags : String
  area_path : String
  iteration_path : String
deriving DecidableEq

/-- Normalization of one raw payload into a DataFrame row, mirroring the
defaults in `_create_dataframe`: missing assignee becomes "Unassigned",
missing or null story points become 0, missing priority becomes 2. -/
def mkRow (r : RawWorkItem) : WorkItem :=
  { id := r.id
    title := r.title.getD ""
    work_item_type := r.work_item_type.getD ""
    state := r.state.getD ""
    assigned_to := r.assigned_to.getD "Unassigned"
    created_date := r.created_date
    changed_date := r.changed_date
    story_points := r.story_points.getD 0
    priority := r.priority.getD 2
    tags := r.tags.getD ""
    area_path := r.area_path.getD ""
    iteration_path := r.iteration_path.getD "" }

/-- The analyzer's DataFrame built from the raw work-item list
(`SprintAnalyzer._create_dataframe`). -/
def create_dataframe (items : List RawWorkItem) : List WorkItem := items.map mkRow

/-- Sprint window (`iteration_info['attributes']`), day granularity. -/
structure IterationInfo where
  startDate : Int
  finishDate : Int
deriving DecidableEq

/-- States treated as completed throughout `data_analyzer.py`. -/
def completed_states : List String := ["Done", "Closed", "Resolved"]

/-- States treated as in progress in `get_sprint_summary`. -/
def in_progress_states : List String := ["Active", "Doing", "In Progress"]

/-- The whitelist of states `get_blocked_items` considers not completed. -/
def incomplete_states : List String := ["New", "Active", "Doing", "To Do", "In Progress"]

/-- Predicate for `state.isin(['Done', 'Closed', 'Resolved'])`. -/
def is_completed (w : WorkItem) : Bool := completed_states.contains w.state

/-- Lifecycle category of a state per `WORK_ITEM_STATES` in `config.py`;
states absent from that table default to the category "unknown" (spec §3). -/
def state_category (s : String) : String :=
  if s = "New" then "proposed"
  else if s = "Active" then "inprogress"
  else if s = "Resolved" then "resolved"
  else if s = "Closed" then "completed"
  else if s = "Removed" then "removed"
  else if s = "To Do" then "proposed"
  else if s = "Doing" then "inprogress"
  else if s = "Done" then "completed"
  else if s = "In Progress" then "inprogress"
  else if s = "Committed" then "committed"
  else "unknown"

/-- The group of rows of `df` whose `key` equals `k` — one pandas
`groupby` bucket. -/
def key_group (key : WorkItem → String) (df : List WorkItem) (k : String) : List WorkItem :=
  df.filter (fun w => key w == k)

/-- Distinct values of `key` over `df` in ascending order: the index of a
pandas `groupby(key)` with the default `sort=True`. -/
def group_keys (key : WorkItem → String) (df : List WorkItem) : List String :=
  List.insertionSort strLe ((df.map key).dedup)

/-- Return value of `get_sprint_summary` in the non-empty case. -/
structure SprintSummary where
  total_items : ℕ
  total_story_points : ℚ
  completed_items : ℕ
  completed_story_points : ℚ
  in_progress_items : ℕ
  completion_percentage : ℚ
  story_points_completion : ℚ
  state_distribution : List (String × ℕ)
deriving DecidableEq

/-- `SprintAnalyzer.get_sprint_summary`.  `none` models the empty dict
returned when the DataFrame is empty.  `state_distribution` pairs each
distinct raw state with its count (the presentation order of
`value_counts` is irrelevant here and not modelled). -/
def get_sprint_summary (df : List WorkItem) : Option SprintSummary :=
  if df.isEmpty then none else
  let total_items := df.length
  let total_story_points := (df.map (·.story_points)).sum
  let completed := df.filter is_completed
  let completed_count := completed.length
  let completed_story_points := (completed.map (·.story_points)).sum
  some
    { total_items := total_items
      total_story_points := total_story_points
      completed_items := completed_count
      completed_story_points := completed_story_points
      in_progress_items := (df.filter (fun w => in_progress_states.contains w.state)).length
      completion_percentage :=
        if 0 < total_items then (completed_count : ℚ) / (total_items : ℚ) * 100 else 0
      story_points_completion :=
        if 0 < total_story_points then completed_story_points / total_story_points * 100 else 0
      state_distribution :=
        ((df.map (·.state)).dedup).map (fun s => (s, (df.filter (fun w => w.state == s)).length)) }

/-- One row of `get_work_item_type_distribution`. -/
structure TypeDistRow where
  work_item_type : String
  count : ℕ
  story_points : ℚ
deriving DecidableEq

/-- `SprintAnalyzer.get_work_item_type_distribution`: group by type,
aggregate count and summed story points. -/
def get_work_item_type_distribution (df : List WorkItem) : List TypeDistRow :=
  if df.isEmpty then [] else
  (group_keys (·.work_item_type) df).map (fun t =>
    let g := key_group (·.work_item_type) df t
    { work_item_type := t, count := g.length, story_points := (g.map (·.story_points)).sum })

/-- One row of `get_assignee_workload`. -/
structure WorkloadRow where
  assigned_to : String
  total_items : ℕ
  story_points : ℚ
  completed_items : ℕ
  completed_story_points : ℚ
  completion_rate : ℚ
deriving DecidableEq

/-- Sort relation of `get_assignee_workload`:
`sort_values('story_points', ascending=False)`. -/
def workload_points_ge (a b : WorkloadRow) : Prop := b.story_points ≤ a.story_points

instance : DecidableRel workload_points_ge :=
  fun a b => inferInstanceAs (Decidable (b.story_points ≤ a.story_points))

instance : IsTotal WorkloadRow workload_points_ge :=
  ⟨fun a b => le_total b.story_points a.story_points⟩

instance : IsTrans WorkloadRow workload_points_ge :=
  ⟨fun _ _ _ hab hbc => le_trans hbc hab⟩

/-- The per-assignee aggregation of `get_assignee_workload` before the
final sort: count, summed points, completed count and points (the
`how='left'` merge plus `fillna(0)` make both 0 for an assignee with no
completed items, which the per-group filter gives directly), and
`completion_rate` (in ℚ, `x / 0 = 0`, matching the `fillna(0)` that
replaces the NaN a zero denominator would produce — a group is never
empty anyway). -/
def workload_rows (df : List WorkItem) : List WorkloadRow :=
  (group_keys (·.assigned_to) df).map (fun a =>
    let g := key_group (·.assigned_to) df a
    let c := g.filter is_completed
    { assigned_to := a
      total_items := g.length
      story_points := (g.map (·.story_points)).sum
      completed_items := c.length
      completed_story_points := (c.map (·.story_points)).sum
      completion_rate := (c.length : ℚ) / (g.length : ℚ) * 100 })

/-- `SprintAnalyzer.get_assignee_workload`. -/
def get_assignee_workload (df : List WorkItem) : List WorkloadRow :=
  if df.isEmpty then [] else
  List.insertionSort workload_points_ge (workload_rows df)

/-- The dict literal `{1: 'Critical', 2: 'High', 3: 'Medium', 4: 'Low'}`
used by `get_priority_distribution`; `Series.map` yields NaN (here
`none`) for a key outside the dict. -/
def priority_mapping (p : Int) : Option String :=
  if p = 1 then some "Critical"
  else if p = 2 then some "High"
  else if p = 3 then some "Medium"
  else if p = 4 then some "Low"
  else none

/-- One row of `get_priority_distribution`. -/
structure PriorityDistRow where
  priority_label : String
  count : ℕ
  story_points : ℚ
deriving DecidableEq

/-- `SprintAnalyzer.get_priority_distribution`: label each row via
`priority_mapping`, then group by label.  A pandas `groupby` drops rows
whose group key is NaN (its default `dropna=True`), which is why the
`filterMap` discards rows with an unmapped priority. -/
def get_priority_distribution (df : List WorkItem) : List PriorityDistRow :=
  if df.isEmpty then [] else
  let labeled := df.filterMap (fun w => (priority_mapping w.priority).map (fun lab => (lab, w)))
  let keys := List.insertionSort strLe ((labeled.map (·.1)).dedup)
  keys.map (fun lab =>
    let g := labeled.filter (fun x => x.1 == lab)
    { priority_label := lab
      count := g.length
      story_points := (g.map (fun x => x.2.story_points)).sum })

/-- The items counted as completed on day `d` by `get_daily_progress`:
`changed_date <= d` and a completed state. -/
def completed_up_to (df : List WorkItem) (d : Int) : List WorkItem :=
  df.filter (fun w => decide (w.changed_date ≤ d) && is_completed w)

/-- `pd.date_range(start, end, freq='D')` at day granularity: all days
from `s` to `e` inclusive; empty when `e < s`. -/
def date_range (s e : Int) : List Int :=
  if s ≤ e then (List.range ((e - s).toNat + 1)).map (fun k : ℕ => s + (k : Int)) else []

/-- One row of the burndown series of `get_daily_progress`. -/
structure DailyProgressRow where
  date : Int
  remaining_story_points : ℚ
  completed_story_points : ℚ
  total_story_points : ℚ
deriving DecidableEq

/-- `SprintAnalyzer.get_daily_progress`. -/
def get_daily_progress (df : List WorkItem) (it : Option IterationInfo) : List DailyProgressRow :=
  match it with
  | none => []
  | some info =>
    if df.isEmpty then [] else
    let total := (df.map (·.story_points)).sum
    (date_range info.startDate info.finishDate).map (fun d =>
      let cpts := ((completed_up_to df d).map (·.story_points)).sum
      { date := d
        remaining_story_points := total - cpts
        completed_story_points := cpts
        total_story_points := total })

/-- Return value of `get_velocity_data` in the non-empty case. -/
structure VelocityData where
  sprint_duration : Int
  planned_story_points : ℚ
  completed_story_points : ℚ
  velocity_per_day : ℚ
  completion_rate : ℚ
deriving DecidableEq

/-- `SprintAnalyzer.get_velocity_data`.  `none` models the empty dict
returned when the DataFrame is empty or no iteration info is present. -/
def get_velocity_data (df : List WorkItem) (it : Option IterationInfo) : Option VelocityData :=
  match it with
  | none => none
  | some info =>
    if df.isEmpty then none else
    let sprint_duration := info.finishDate - info.startDate
    let completed_points := ((df.filter is_completed).map (·.story_points)).sum
    let planned_points := (df.map (·.story_points)).sum
    some
      { sprint_duration := sprint_duration
        planned_story_points := planned_points
        completed_story_points := completed_points
        velocity_per_day :=
          if 0 < sprint_duration then completed_points / (sprint_duration : ℚ) else 0
        completion_rate :=
          if 0 < planned_points then completed_points / planned_points * 100 else 0 }

/-- Ascending order on integers, for the median's sort. -/
def intLe (a b : Int) : Prop := a ≤ b

instance : DecidableRel intLe := fun a b => inferInstanceAs (Decidable (a ≤ b))

/-- Median of a list of integer day counts, as pandas computes it:
middle element of the sorted list, or the mean of the two middle
elements. -/
def medianInt (l : List Int) : ℚ :=
  let s := List.insertionSort intLe l
  let n := s.length
  if n = 0 then 0
  else if n % 2 = 1 then ((s.getD (n / 2) 0 : Int) : ℚ)
  else (((s.getD (n / 2 - 1) 0 : Int) : ℚ) + ((s.getD (n / 2) 0 : Int) : ℚ)) / 2

/-- One row of `get_cycle_time_analysis`.  The sample standard deviation
column and the display rounding to two decimals are not modelled (they
need real-valued square roots and are used by no claim). -/
structure CycleTimeRow where
  work_item_type : String
  count : ℕ
  avg_cycle_time : ℚ
  median_cycle_time : ℚ
  min_cycle_time : Int
  max_cycle_time : Int
deriving DecidableEq

/-- `SprintAnalyzer.get_cycle_time_analysis`: for completed items only,
whole-day cycle times grouped by work item type. -/
def get_cycle_time_analysis (df : List WorkItem) : List CycleTimeRow :=
  if df.isEmpty then [] else
  let completed := df.filter is_completed
  if completed.isEmpty then [] else
  (group_keys (·.work_item_type) completed).map (fun t =>
    let g := key_group (·.work_item_type) completed t
    let days : List Int := g.map (fun w => w.changed_date - w.created_date)
    { work_item_type := t
      count := g.length
      avg_cycle_time := ((days.map (fun d => (d : ℚ))).sum) / (g.length : ℚ)
      median_cycle_time := medianInt days
      min_cycle_time := (days.min?).getD 0
      max_cycle_time := (days.max?).getD 0 })

/-- One row of `get_blocked_items`. -/
structure BlockedRow where
  id : Int
  title : String
  work_item_type : String
  state : String
  assigned_to : String
  days_since_update : Int
deriving DecidableEq

/-- Sort relation of `get_blocked_items`:
`sort_values('days_since_update', ascending=False)`. -/
def blocked_stale_ge (a b : BlockedRow) : Prop := b.days_since_update ≤ a.days_since_update

instance : DecidableRel blocked_stale_ge :=
  fun a b => inferInstanceAs (Decidable (b.days_since_update ≤ a.days_since_update))

instance : IsTotal BlockedRow blocked_stale_ge :=
  ⟨fun a b => le_total b.days_since_update a.days_since_update⟩

instance : IsTrans BlockedRow blocked_stale_ge :=
  ⟨fun _ _ _ hab hbc => le_trans hbc hab⟩

/-- Projection of a work item to a `get_blocked_items` output row. -/
def blocked_row (w : WorkItem) (now : Int) : BlockedRow :=
  { id := w.id
    title := w.title
    work_item_type := w.work_item_type
    state := w.state
    assigned_to := w.assigned_to
    days_since_update := now - w.changed_date }

/-- `SprintAnalyzer.get_blocked_items`: items in one of the five
whitelisted incomplete states not updated for more than 3 days before
`now`, most stale first.  `now` stands for `datetime.now(timezone.utc)`
(taken twice in the source a few microseconds apart, which cannot change
whole-day arithmetic; modelled as one instant). -/
def get_blocked_items (df : List WorkItem) (now : Int) : List BlockedRow :=
  if df.isEmpty then [] else
  let cutoff := now - 3
  let blocked := df.filter
    (fun w => decide (w.changed_date < cutoff) && incomplete_states.contains w.state)
  List.insertionSort blocked_stale_ge (blocked.map (fun w => blocked_row w now))

/-- The high-priority filter `priority <= 2` used by
`get_important_work_analysis` and the champion scoring. -/
def is_high_priority (w : WorkItem) : Bool := decide (w.priority ≤ 2)

/-- The significant-work filter `story_points >= 5`. -/
def is_significant (w : WorkItem) : Bool := decide ((5 : ℚ) ≤ w.story_points)

/-- The bug filter `work_item_type.str.contains('Bug', case=False)`. -/
def is_bug_type (w : WorkItem) : Bool := str_contains_ci w.work_item_type "Bug"

/-- Return value of `get_important_work_analysis` in the non-empty case.
The achievement buckets and per-type sample titles are presentation
payloads derived from the same filters and are not modelled. -/
structure ImportantWork where
  total_completed_items : ℕ
  total_completed_story_points : ℚ
  high_priority_completed : ℕ
  significant_work_completed : ℕ
deriving DecidableEq

/-- `SprintAnalyzer.get_important_work_analysis`. -/
def get_important_work_analysis (df : List WorkItem) : Option ImportantWork :=
  if df.isEmpty then none else
  let completed := df.filter is_completed
  some
    { total_completed_items := completed.length
      total_completed_story_points := (completed.map (·.story_points)).sum
      high_priority_completed := (completed.filter is_high_priority).length
      significant_work_completed := (completed.filter is_significant).length }

/-- One entry of `champion_scores` in `get_sprint_champion_analysis`.
The `work_types` and `sample_work` presentation payloads are not
modelled. -/
structure ChampionEntry where
  assignee : String
  score : ℚ
  completion_rate : ℚ
  story_points : ℚ
  completed_story_points : ℚ
  total_items : ℕ
  completed_items : ℕ
  high_priority_completed : ℕ
  significant_items_completed : ℕ
  bug_fixes : ℕ
deriving DecidableEq

/-- Sort relation of the champion ranking:
`champion_scores.sort(key=lambda x: x['score'], reverse=True)` (a stable
sort, so equal scores keep their workload-table order). -/
def champion_score_ge (a b : ChampionEntry) : Prop := b.score ≤ a.score

instance : DecidableRel champion_score_ge :=
  fun a b => inferInstanceAs (Decidable (b.score ≤ a.score))

instance : IsTotal ChampionEntry champion_score_ge :=
  ⟨fun a b => le_total b.score a.score⟩

instance : IsTrans ChampionEntry champion_score_ge :=
  ⟨fun _ _ _ hab hbc => le_trans hbc hab⟩

/-- One candidate's score entry, computed from their workload row and
their completed items.  The weight `0.4` is the rational `2 / 5`. -/
def champion_entry (df : List WorkItem) (row : WorkloadRow) : ChampionEntry :=
  let assignee_work := df.filter (fun w => w.assigned_to == row.assigned_to)
  let completed_work := assignee_work.filter is_completed
  let hp := (completed_work.filter is_high_priority).length
  let sig := (completed_work.filter is_significant).length
  let bugs := (completed_work.filter is_bug_type).length
  { assignee := row.assigned_to
    score := row.completion_rate * (2 / 5)
      + min (row.completed_story_points / 10 * 20) 30
      + (hp : ℚ) * 5 + (sig : ℚ) * 3 + (bugs : ℚ) * 2
    completion_rate := row.completion_rate
    story_points := row.story_points
    completed_story_points := row.completed_story_points
    total_items := row.total_items
    completed_items := row.completed_items
    high_priority_completed := hp
    significant_items_completed := sig
    bug_fixes := bugs }

/-- Return value of `get_sprint_champion_analysis` in the non-empty case.
The achievement badges and team averages are presentation payloads
computed from `champion` and the candidate rows and are not modelled. -/
structure ChampionAnalysis where
  champion : ChampionEntry
  all_scores : List ChampionEntry
deriving DecidableEq

/-- `SprintAnalyzer.get_sprint_champion_analysis`: candidates are the
workload rows excluding "Unassigned" with at least 3 story points; their
entries are ranked by descending score and the head is the champion. -/
def get_sprint_champion_analysis (df : List WorkItem) : Option ChampionAnalysis :=
  if df.isEmpty then none else
  let workload := get_assignee_workload df
  if workload.isEmpty then none else
  let significant_contributors := workload.filter
    (fun r => (r.assigned_to != "Unassigned") && decide ((3 : ℚ) ≤ r.story_points))
  if significant_contributors.isEmpty then none else
  let champion_scores :=
    List.insertionSort champion_score_ge (significant_contributors.map (champion_entry df))
  match champion_scores with
  | [] => none
  | c :: rest => some { champion := c, all_scores := c :: rest }

/-- The spec's description of the blocked-item predicate (claim C6):
state category not completed/removed and stale beyond 3 days.  Kept
separate from `get_blocked_items` to compare the two. -/
def claim_blocked_pred (now : Int) (w : WorkItem) : Bool :=
  (!(state_category w.state == "completed" || state_category w.state == "removed"))
    && decide (w.changed_date < now - 3)

/-- Batch size of `get_work_items_details` (`batch_size = 100`). -/
def batch_size : ℕ := 100

/-- Structural-recursion engine for the chunking loop
`for i in range(0, len(ids), batch_size)`.  The fuel argument only bounds
the number of iterations; with `fuel ≥ l.length` the `0, _ :: _` fallback
is never reached. -/
def chunksGo {α : Type} : ℕ → List α → List (List α)
  | _, [] => []
  | 0, l => [l]
  | fuel + 1, l => l.take batch_size :: chunksGo fuel (l.drop batch_size)

/-- The successive ID slices `ids[i:i + batch_size]` requested by
`get_work_items_details`. -/
def batchChunks {α : Type} (l : List α) : List (List α) := chunksGo l.length l

/-- `AzureDevOpsClient.get_work_items_details`, abstracted over the
network: `fetch` maps one batch of IDs to `some` parsed items, or `none`
when the POST raises — in that case the `except` logs and `continue`s, so
the batch contributes nothing and the remaining batches still run. -/
def get_work_items_details {α : Type} (ids : List Int)
    (fetch : List Int → Option (List α)) : List α :=
  if ids.isEmpty then [] else
  ((batchChunks ids).map (fun b => (fetch b).getD [])).flatten

/-- A single-quote character, written by code point to keep WIQL text
readable in this file. -/
def sq : String := String.singleton (Char.ofNat 39)

/-- The fixed SELECT/FROM/WHERE text that precedes the interpolated
iteration path in the WIQL f-string. -/
def wiql_select_clause : String :=
  "\n        SELECT [System.Id], [System.Title], [System.State], [System.WorkItemType],\n               [System.AssignedTo], [System.CreatedDate], [System.ChangedDate],\n               [Microsoft.VSTS.Scheduling.StoryPoints], [Microsoft.VSTS.Common.Priority],\n               [System.Tags], [System.AreaPath], [System.IterationPath]\n        FROM WorkItems\n        WHERE [System.IterationPath] = "

/-- The fixed text between the iteration path and the project name. -/
def wiql_project_clause : String := "\n        AND [System.TeamProject] = "

/-- The fixed text preceding the optional area-path filter. -/
def wiql_area_clause : String := "\nAND [System.AreaPath] UNDER "

/-- The fixed ORDER BY tail of the query. -/
def wiql_order_clause : String := "\nORDER BY [System.Id]"

/-- `AzureDevOpsClient.get_work_items_by_iteration`'s WIQL construction:
the f-string interpolates `iteration_path`, the project name and the
optional `area_path` verbatim between single quotes, with no escaping or
validation. -/
def build_wiql_query (iteration_path : String) (area_path : Option String)
    (project : String) : String :=
  let base := wiql_select_clause ++ sq ++ iteration_path ++ sq
      ++ wiql_project_clause ++ sq ++ project ++ sq
  let with_area :=
    match area_path with
    | some a => base ++ wiql_area_clause ++ sq ++ a ++ sq
    | none => base
  with_area ++ wiql_order_clause

/-- Number of single-quote characters in a string.  In a WIQL query whose
string values are each a single quoted literal, every quote is a
delimiter, so the count is twice the number of values. -/
def quote_count (s : String) : ℕ := s.data.count (Char.ofNat 39)

/-- A work item with every field at its blank default, used to build the
concrete evaluation inputs below. -/
def base_item : WorkItem :=
  { id := 0, title := "", work_item_type := "", state := "", assigned_to := ""
    created_date := 0, changed_date := 0, story_points := 0, priority := 4
    tags := "", area_path := "", iteration_path := "" }

/-- A work item whose priority 9 is outside the `priority_mapping` table. -/
def item_priority9 : WorkItem :=
  { base_item with id := 1, work_item_type := "Task", state := "Active", priority := 9 }

/-- Sample sprint window for concrete evaluations. -/
def it_c3 : IterationInfo := { startDate := 0, finishDate := 5 }

/-- Sample non-empty work item for the shape comparison of claim C3. -/
def item_c3 : WorkItem := { base_item with id := 1, state := "Active" }

/-- Claim C2 input: Alice, one completed 16-point task at priority 3. -/
def item_alice : WorkItem :=
  { base_item with id := 1, work_item_type := "Task", state := "Done", assigned_to := "Alice"
                   changed_date := 1, story_points := 16, priority := 3 }

/-- Claim C2 input: Bob, one completed 20-point task at priority 3; his
champion score equals Alice's (both 73) while his story points differ. -/
def item_bob : WorkItem :=
  { base_item with id := 2, work_item_type := "Task", state := "Done", assigned_to := "Bob"
                   changed_date := 1, story_points := 20, priority := 3 }

/-- Claim C2 input: two candidates with equal champion scores. -/
def df_c2 : List WorkItem := [item_alice, item_bob]

/-- Alice's workload row for `df_c2`. -/
def alice_row : WorkloadRow :=
  { assigned_to := "Alice", total_items := 1, story_points := 16, completed_items := 1
    completed_story_points := 16, completion_rate := 100 }

/-- Bob's workload row for `df_c2`. -/
def bob_row : WorkloadRow :=
  { assigned_to := "Bob", total_items := 1, story_points := 20, completed_items := 1
    completed_story_points := 20, completion_rate := 100 }

/-- Alice's champion entry for `df_c2`: score 40 + 30 + 3 = 73. -/
def alice_entry : ChampionEntry :=
  { assignee := "Alice", score := 73, completion_rate := 100, story_points := 16
    completed_story_points := 16, total_items := 1, completed_items := 1
    high_priority_completed := 0, significant_items_completed := 1, bug_fixes := 0 }

/-- Bob's champion entry for `df_c2`: score 40 + 30 + 3 = 73. -/
def bob_entry : ChampionEntry :=
  { assignee := "Bob", score := 73, completion_rate := 100, story_points := 20
    completed_story_points := 20, total_items := 1, completed_items := 1
    high_priority_completed := 0, significant_items_completed := 1, bug_fixes := 0 }

/-- Claim C6 input: a "Committed" item untouched for 10 days (`now` = 100). -/
def committed_stale : WorkItem :=
  { base_item with id := 1, state := "Committed", changed_date := 90 }

/-- Claim C6 example: Active, changed 4 days before `now` = 100. -/
def ex_active4 : WorkItem := { base_item with id := 2, state := "Active", changed_date := 96 }

/-- Claim C6 example: Active, changed 2 days before `now` = 100. -/
def ex_active2 : WorkItem := { base_item with id := 3, state := "Active", changed_date := 98 }

/-- Claim C6 example: Closed, changed 10 days before `now` = 100. -/
def ex_closed10 : WorkItem := { base_item with id := 4, state := "Closed", changed_date := 90 }

/-- Claim C4 witness input: one completed and one active item. -/
def df_c4 : List WorkItem :=
  [{ base_item with id := 1, state := "Done", changed_date := 1, story_points := 3 },
   { base_item with id := 2, state := "Active", changed_date := 5, story_points := 2 }]

/-- Claim C4 witness window: three days. -/
def it_c4 : IterationInfo := { startDate := 0, finishDate := 2 }

/-- Claim C5 witness input. -/
def df_c5 : List WorkItem :=
  [{ base_item with id := 1, work_item_type := "Bug", state := "Done", assigned_to := "Alice"
                    story_points := 3 },
   { base_item with id := 2, work_item_type := "Task", state := "Active", assigned_to := "Bob"
                    story_points := 2 }]

/-- Claim C8 witness input. -/
def df_c8 : List WorkItem :=
  [{ base_item with id := 1, state := "Done", story_points := 3 },
   { base_item with id := 2, state := "Active", story_points := 2 }]

/-- Claim C10 witness input: a raw payload with no priority field. -/
def raw_c10 : RawWorkItem :=
  { id := 7, title := some "t", work_item_type := some "Task", state := some "Done"
    assigned_to := some "Alice", created_date := 0, changed_date := 1
    story_points := some 2, priority := none, tags := none, area_path := none
    iteration_path := none }

/-- Claim C7 witness input: 250 work item IDs. -/
def ids_c7 : List Int := (List.range 250).map (fun n => (n : Int))

/-- Claim C7 witness fetch: the middle batch fails, the others return one
item per requested ID (the items here are just the IDs). -/
def fetch_c7 : List Int → Option (List Int) :=
  fun b => if b = (ids_c7.drop 100).take 100 then none else some b

/-- Claim C9 input: an iteration path containing a single-quote character
(`Sprint'25`). -/
def bad_iteration_path : String := "Sprint" ++ sq ++ "25"

end SprintSummaryData

namespace SprintSummaryData

theorem sum_map_add {α M : Type} [AddCommMonoid M] (l : List α) (f g : α → M) :
    (l.map (fun x => f x + g x)).sum = (l.map f).sum + (l.map g).sum := by
  induction l with
  | nil => simp
  | cons a l ih =>
    simp only [List.map_cons, List.sum_cons, ih]
    abel

theorem sum_map_one {α : Type} (l : List α) : (l.map (fun _ => (1 : ℕ))).sum = l.length := by
  induction l with
  | nil => simp
  | cons a l ih => simp [ih, Nat.add_comm]

theorem sum_ite_key {M : Type} [AddCommMonoid M] :
    ∀ keys : List String, keys.Nodup → ∀ a : String, a ∈ keys → ∀ v : M,
      (keys.map (fun k => if a = k then v else 0)).sum = v := by
  intro keys
  induction keys with
  | nil => intro _ a ha; cases ha
  | cons k ks ih =>
    intro hnd a ha v
    rcases List.nodup_cons.mp hnd with ⟨hk, hnd'⟩
    rcases List.mem_cons.mp ha with h | h
    · subst h
      rw [List.map_cons, List.sum_cons, if_pos rfl]
      have hz : (ks.map (fun k => if a = k then v else 0)).sum = 0 := by
        apply List.sum_eq_zero
        intro x hx
        rcases List.mem_map.mp hx with ⟨b, hb, rfl⟩
        rw [if_neg]
        intro hab
        exact hk (hab ▸ hb)
      rw [hz, add_zero]
    · have hne : a ≠ k := by
        intro he
        subst he
        exact hk h
      rw [List.map_cons, List.sum_cons, if_neg hne, zero_add, ih hnd' a h v]

theorem sum_key_group {M : Type} [AddCommMonoid M] (key : WorkItem → String)
    (keys : List String) (hnd : keys.Nodup) (f : WorkItem → M) :
    ∀ df : List WorkItem, (∀ w ∈ df, key w ∈ keys) →
      (keys.map (fun k => ((key_group key df k).map f).sum)).sum = (df.map f).sum := by
  intro df
  induction df with
  | nil => intro _; simp [key_group]
  | cons w df ih =>
    intro hcov
    have hcov' : ∀ x ∈ df, key x ∈ keys := fun x hx => hcov x (List.mem_cons_of_mem _ hx)
    have hw : key w ∈ keys := hcov w (List.mem_cons_self _ _)
    have step : ∀ k, ((key_group key (w :: df) k).map f).sum
        = (if key w = k then f w else 0) + ((key_group key df k).map f).sum := by
      intro k
      by_cases h : key w = k
      · simp [key_group, List.filter_cons, h]
      · simp [key_group, List.filter_cons, h]
    have hmap : keys.map (fun k => ((key_group key (w :: df) k).map f).sum)
        = keys.map (fun k => (if key w = k then f w else 0) + ((key_group key df k).map f).sum) :=
      List.map_congr_left (fun k _ => step k)
    rw [hmap, sum_map_add, sum_ite_key keys hnd _ hw, ih hcov']
    simp

theorem length_key_group (key : WorkItem → String) (keys : List String) (hnd : keys.Nodup)
    (df : List WorkItem) (hcov : ∀ w ∈ df, key w ∈ keys) :
    (keys.map (fun k => (key_group key df k).length)).sum = df.length := by
  calc (keys.map (fun k => (key_group key df k).length)).sum
      = (keys.map (fun k => ((key_group key df k).map (fun _ => (1 : ℕ))).sum)).sum := by
        refine congrArg List.sum (List.map_congr_left ?_)
        intro k _
        rw [sum_map_one]
    _ = (df.map (fun _ => (1 : ℕ))).sum := sum_key_group key keys hnd _ df hcov
    _ = df.length := sum_map_one df

theorem mem_group_keys {key : WorkItem → String} {df : List WorkItem} {w : WorkItem}
    (hw : w ∈ df) : key w ∈ group_keys key df := by
  unfold group_keys
  rw [(List.perm_insertionSort strLe _).mem_iff]
  exact List.mem_dedup.mpr (List.mem_map_of_mem _ hw)

theorem nodup_group_keys (key : WorkItem → String) (df : List WorkItem) :
    (group_keys key df).Nodup := by
  unfold group_keys
  exact ((List.perm_insertionSort strLe _).nodup_iff).mpr (List.nodup_dedup _)

theorem sum_points_nonneg (l : List WorkItem) (h : ∀ w ∈ l, 0 ≤ w.story_points) :
    0 ≤ (l.map (·.story_points)).sum := by
  apply List.sum_nonneg
  intro x hx
  rcases List.mem_map.mp hx with ⟨w, hw, rfl⟩
  exact h w hw

theorem sum_points_filter_mono (p q : WorkItem → Bool) :
    ∀ l : List WorkItem, (∀ w ∈ l, p w = true → q w = true) →
      (∀ w ∈ l, 0 ≤ w.story_points) →
      ((l.filter p).map (·.story_points)).sum ≤ ((l.filter q).map (·.story_points)).sum := by
  intro l
  induction l with
  | nil => intro _ _; simp
  | cons a l ih =>
    intro hpq hf
    have hpq' : ∀ w ∈ l, p w = true → q w = true :=
      fun w hw => hpq w (List.mem_cons_of_mem _ hw)
    have hf' : ∀ w ∈ l, 0 ≤ w.story_points := fun w hw => hf w (List.mem_cons_of_mem _ hw)
    have ha : 0 ≤ a.story_points := hf a (List.mem_cons_self _ _)
    have ihh := ih hpq' hf'
    by_cases hp : p a = true
    · have hq : q a = true := hpq a (List.mem_cons_self _ _) hp
      simp only [List.filter_cons, hp, hq, if_true, List.map_cons, List.sum_cons]
      exact add_le_add_left ihh _
    · by_cases hq : q a = true
      · simp only [List.filter_cons, hp, hq, if_true, if_false, List.map_cons, List.sum_cons]
        exact le_add_of_nonneg_of_le ha ihh
      · simp only [List.filter_cons, hp, hq, if_false]
        exact ihh

theorem sum_points_filter_le (p : WorkItem → Bool) (l : List WorkItem)
    (hf : ∀ w ∈ l, 0 ≤ w.story_points) :
    ((l.filter p).map (·.story_points)).sum ≤ (l.map (·.story_points)).sum := by
  induction l with
  | nil => simp
  | cons a l ih =>
    have hf' : ∀ w ∈ l, 0 ≤ w.story_points := fun w hw => hf w (List.mem_cons_of_mem _ hw)
    have ha : 0 ≤ a.story_points := hf a (List.mem_cons_self _ _)
    have ihh := ih hf'
    by_cases hp : p a = true
    · simp only [List.filter_cons, hp, if_true, List.map_cons, List.sum_cons]
      exact add_le_add_left ihh _
    · simp only [List.filter_cons, hp, if_false, List.map_cons, List.sum_cons]
      exact le_add_of_nonneg_of_le ha ihh

theorem isEmpty_false_of_ne_nil {α : Type} {l : List α} (h : l ≠ []) : l.isEmpty = false := by
  cases l with
  | nil => cases h rfl
  | cons a t => rfl

/-- C1: `get_priority_distribution` silently drops a row whose priority is
outside the mapped set {1, 2, 3, 4}.  For a single item with priority 9
the distribution is empty — no "Unknown" bucket — while the sprint
summary still counts the item, so the bucket counts (0) do not sum to
`total_items` (1).  The spec demands an explicit Unknown bucket; the code
(`Series.map` to NaN, then `groupby` with its default `dropna=True`)
discards the row. -/
theorem c1_priority9_dropped :
    get_priority_distribution [item_priority9] = [] ∧
    ((get_priority_distribution [item_priority9]).map (·.count)).sum = 0 ∧
    (get_sprint_summary [item_priority9]).map (·.total_items) = some 1 := by
  refine ⟨by decide, by decide, by decide⟩

/-- C3 (counterexample): on the empty work-item list `get_sprint_summary`
returns the empty dict (`none`), not a dict with the non-empty key set
holding zero values, so the empty-input result does not have the same
shape as the non-empty one (`some` of a populated record). -/
theorem c3_empty_summary_shape_differs :
    get_sprint_summary [] = none ∧
    get_velocity_data [] (some it_c3) = none ∧
    (get_sprint_summary [item_c3]).isSome = true := by
  refine ⟨by decide, by decide, by decide⟩

/-- C3 (amended): every derived-metric query returns its module-wide
empty sentinel on the empty input without raising: the empty dict
(`none`) for the dict-shaped queries and an empty table for the
table-shaped ones, never a null table. -/
theorem c3_empty_input_sentinels :
    get_sprint_summary [] = none ∧
    get_work_item_type_distribution [] = [] ∧
    get_assignee_workload [] = [] ∧
    get_priority_distribution [] = [] ∧
    get_daily_progress [] (some it_c3) = [] ∧
    get_daily_progress [] none = [] ∧
    get_velocity_data [] (some it_c3) = none ∧
    get_velocity_data [] none = none ∧
    get_cycle_time_analysis [] = [] ∧
    get_blocked_items [] 100 = [] ∧
    get_important_work_analysis [] = none ∧
    get_sprint_champion_analysis [] = none := by
  repeat constructor

/-- C6 (counterexample): a "Committed" item untouched for 10 days has a
state category (`committed`) that is neither completed nor removed, so
the claim's predicate marks it blocked, yet `get_blocked_items` returns
nothing for it — the code uses the whitelist `incomplete_states`, not
the state-category complement. -/
theorem c6_committed_stale_not_reported :
    claim_blocked_pred 100 committed_stale = true ∧
    state_category committed_stale.state = "committed" ∧
    get_blocked_items [committed_stale] 100 = [] := by
  refine ⟨by decide, by decide, by decide⟩

/-- C6 (amended): `get_blocked_items` returns exactly the items whose
state is one of New/Active/Doing/To Do/In Progress and whose
`changed_date` is more than 3 days before `now`, sorted descending by
days since update; the claim's concrete examples behave as stated
(Active changed 4 days ago is included, Active changed 2 days ago and
Closed changed 10 days ago are not). -/
theorem c6_blocked_whitelist_sorted :
    (∀ (df : List WorkItem) (now : Int),
      (get_blocked_items df now).Perm
        ((df.filter (fun w =>
            decide (w.changed_date < now - 3) && incomplete_states.contains w.state)).map
          (fun w => blocked_row w now)) ∧
      List.Sorted blocked_stale_ge (get_blocked_items df now)) ∧
    get_blocked_items [ex_active4, ex_active2, ex_closed10] 100 = [blocked_row ex_active4 100] := by
  constructor
  · intro df now
    constructor
    · unfold get_blocked_items
      split
      · next hemp =>
        have : df = [] := List.isEmpty_iff.mp hemp
        subst this
        simp
      · exact List.perm_insertionSort _ _
    · unfold get_blocked_items
      split
      · exact List.sorted_nil
      · exact List.sorted_insertionSort _ _
  · decide

set_option maxRecDepth 8000 in
/-- C9: the WIQL builder embeds the caller-supplied paths verbatim — no
escaping or validation at all — so a path containing a single quote
breaks out of its quoted literal.  A benign query carries exactly 4
quote characters (two delimiter pairs); with the path `Sprint'25` the
query carries 5, so the supplied path cannot have been parsed as one
single-quoted literal value. -/
theorem c9_wiql_paths_unescaped :
    (∀ p proj : String, ∃ pre suf : List Char,
        (build_wiql_query p none proj).data = pre ++ p.data ++ suf) ∧
    quote_count (build_wiql_query "Sprint 1" none "TaxProf") = 4 ∧
    quote_count (build_wiql_query bad_iteration_path none "TaxProf") = 5 := by
  refine ⟨?_, by decide, by decide⟩
  intro p proj
  refine ⟨(wiql_select_clause ++ sq).data,
    (sq ++ wiql_project_clause ++ sq ++ proj ++ sq ++ wiql_order_clause).data, ?_⟩
  simp [build_wiql_query, String.data_append, List.append_assoc]

theorem chunksGo_nil {α : Type} (fuel : ℕ) : chunksGo fuel ([] : List α) = [] := by
  cases fuel <;> rfl

theorem chunksGo_step {α : Type} (fuel : ℕ) (l : List α) (h : l ≠ []) :
    chunksGo (fuel + 1) l = l.take batch_size :: chunksGo fuel (l.drop batch_size) := by
  cases l with
  | nil => cases h rfl
  | cons a t => rfl

theorem ne_nil_of_length_pos' {α : Type} {l : List α} {n : ℕ} (h : l.length = n + 1) :
    l ≠ [] := by
  intro e
  rw [e] at h
  cases h

theorem batchChunks_of_length_250 {α : Type} (l : List α) (h : l.length = 250) :
    batchChunks l = [l.take 100, (l.drop 100).take 100, l.drop 200] := by
  have h1 : l ≠ [] := ne_nil_of_length_pos' (n := 249) h
  have hd1 : (l.drop batch_size).length = 150 := by
    simp [batch_size, h]
  have h2 : l.drop batch_size ≠ [] := ne_nil_of_length_pos' (n := 149) hd1
  have hd2 : ((l.drop batch_size).drop batch_size).length = 50 := by
    simp [batch_size, h]
  have h3 : (l.drop batch_size).drop batch_size ≠ [] := ne_nil_of_length_pos' (n := 49) hd2
  have hd3 : (((l.drop batch_size).drop batch_size).drop batch_size) = [] := by
    apply List.eq_nil_of_length_eq_zero
    simp [batch_size, h]
  unfold batchChunks
  rw [h]
  rw [show (250 : ℕ) = 249 + 1 by norm_num, chunksGo_step _ _ h1]
  rw [show (249 : ℕ) = 248 + 1 by norm_num, chunksGo_step _ _ h2]
  rw [show (248 : ℕ) = 247 + 1 by norm_num, chunksGo_step _ _ h3]
  rw [hd3, chunksGo_nil]
  simp [batch_size, List.drop_drop]
  omega

/-- C7: splitting 250 IDs with batch size 100 yields exactly the three
batches of sizes 100, 100 and 50, and when the middle batch's request
fails (`fetch` returns `none`) while the other two succeed with one item
per ID, `get_work_items_details` still returns the union of the two
successful batches — 150 items, neither an empty result nor an abort. -/
theorem c7_batching_partial_failure {α : Type} (ids : List Int)
    (fetch : List Int → Option (List α)) (l1 l3 : List α)
    (hlen : ids.length = 250)
    (h1 : fetch (ids.take 100) = some l1) (hl1 : l1.length = 100)
    (h2 : fetch ((ids.drop 100).take 100) = none)
    (h3 : fetch (ids.drop 200) = some l3) (hl3 : l3.length = 50) :
    (batchChunks ids).map List.length = [100, 100, 50] ∧
    get_work_items_details ids fetch = l1 ++ l3 ∧
    (get_work_items_details ids fetch).length = 150 := by
  have hc := batchChunks_of_length_250 ids hlen
  have hne : ids ≠ [] := ne_nil_of_length_pos' (n := 249) hlen
  have hmain : get_work_items_details ids fetch = l1 ++ l3 := by
    unfold get_work_items_details
    rw [isEmpty_false_of_ne_nil hne]
    rw [hc]
    simp [h1, h2, h3]
  refine ⟨?_, hmain, ?_⟩
  · rw [hc]
    simp [List.length_take, List.length_drop, hlen]
  · rw [hmain]
    simp [hl1, hl3]

/-- C4: the burndown's remaining story points never increase from one
day to the next, for any work-item set with non-negative story points
(the data model's invariant) and any iteration window. -/
theorem c4_burndown_nonincreasing (df : List WorkItem) (it : Option IterationInfo)
    (hpts : ∀ w ∈ df, 0 ≤ w.story_points) :
    List.Chain' (fun a b => b.remaining_story_points ≤ a.remaining_story_points)
      (get_daily_progress df it) := by
  cases it with
  | none => simp [get_daily_progress]
  | some info =>
    simp only [get_daily_progress]
    split
    · exact List.chain'_nil
    · simp only [date_range]
      split
      · rw [List.map_map]
        refine (List.chain'_map _).2 ?_
        refine (List.chain'_range_succ _ _).2 ?_
        intro m _
        simp only [Function.comp_apply]
        apply sub_le_sub_left
        simp only [completed_up_to]
        apply sum_points_filter_mono _ _ df _ hpts
        intro w _ hw
        rw [Bool.and_eq_true, decide_eq_true_eq] at hw ⊢
        refine ⟨?_, hw.2⟩
        have h1 := hw.1
        push_cast at h1 ⊢
        omega
      · simp

/-- C4 witness: `c4_burndown_nonincreasing` on a concrete two-item
sprint over a three-day window. -/
theorem c4_burndown_witness :
    (∀ w ∈ df_c4, 0 ≤ w.story_points) ∧
    List.Chain' (fun a b => b.remaining_story_points ≤ a.remaining_story_points)
      (get_daily_progress df_c4 (some it_c4)) := by
  have hp : ∀ w ∈ df_c4, 0 ≤ w.story_points := by
    intro w hw
    fin_cases hw <;> norm_num [base_item]
  exact ⟨hp, c4_burndown_nonincreasing df_c4 (some it_c4) hp⟩

theorem type_distribution_counts (df : List WorkItem) (hne : df.isEmpty = false) :
    ((get_work_item_type_distribution df).map (·.count)).sum = df.length := by
  simp only [get_work_item_type_distribution, hne, Bool.false_eq_true, if_false, List.map_map]
  have h := length_key_group (fun w => w.work_item_type) (group_keys (·.work_item_type) df)
    (nodup_group_keys _ df) df (fun w hw => mem_group_keys hw)
  rw [← h]
  rfl

theorem type_distribution_points (df : List WorkItem) (hne : df.isEmpty = false) :
    ((get_work_item_type_distribution df).map (·.story_points)).sum
      = (df.map (·.story_points)).sum := by
  simp only [get_work_item_type_distribution, hne, Bool.false_eq_true, if_false, List.map_map]
  have h := sum_key_group (fun w => w.work_item_type) (group_keys (·.work_item_type) df)
    (nodup_group_keys _ df) (fun w => w.story_points) df (fun w hw => mem_group_keys hw)
  rw [← h]
  rfl

theorem workload_total_items (df : List WorkItem) (hne : df.isEmpty = false) :
    ((get_assignee_workload df).map (·.total_items)).sum = df.length := by
  simp only [get_assignee_workload, hne, Bool.false_eq_true, if_false]
  rw [((List.perm_insertionSort workload_points_ge (workload_rows df)).map
    (fun r => r.total_items)).sum_eq]
  simp only [workload_rows, List.map_map]
  have h := length_key_group (fun w => w.assigned_to) (group_keys (·.assigned_to) df)
    (nodup_group_keys _ df) df (fun w hw => mem_group_keys hw)
  rw [← h]
  rfl

theorem workload_points (df : List WorkItem) (hne : df.isEmpty = false) :
    ((get_assignee_workload df).map (·.story_points)).sum = (df.map (·.story_points)).sum := by
  simp only [get_assignee_workload, hne, Bool.false_eq_true, if_false]
  rw [((List.perm_insertionSort workload_points_ge (workload_rows df)).map
    (fun r => r.story_points)).sum_eq]
  simp only [workload_rows, List.map_map]
  have h := sum_key_group (fun w => w.assigned_to) (group_keys (·.assigned_to) df)
    (nodup_group_keys _ df) (fun w => w.story_points) df (fun w hw => mem_group_keys hw)
  rw [← h]
  rfl

/-- C5: for every non-empty work-item set, the type-distribution rows and
the assignee-workload rows each sum — over their count and story-point
columns — to exactly the `total_items` and `total_story_points` the
sprint summary reports. -/
theorem c5_distributions_consistent (df : List WorkItem) (h : df ≠ []) :
    (get_sprint_summary df).map (·.total_items)
      = some (((get_work_item_type_distribution df).map (·.count)).sum) ∧
    (get_sprint_summary df).map (·.total_story_points)
      = some (((get_work_item_type_distribution df).map (·.story_points)).sum) ∧
    (get_sprint_summary df).map (·.total_items)
      = some (((get_assignee_workload df).map (·.total_items)).sum) ∧
    (get_sprint_summary df).map (·.total_story_points)
      = some (((get_assignee_workload df).map (·.story_points)).sum) := by
  have hne := isEmpty_false_of_ne_nil h
  refine ⟨?_, ?_, ?_, ?_⟩
  · rw [type_distribution_counts df hne]
    simp [get_sprint_summary, hne]
  · rw [type_distribution_points df hne]
    simp [get_sprint_summary, hne]
  · rw [workload_total_items df hne]
    simp [get_sprint_summary, hne]
  · rw [workload_points df hne]
    simp [get_sprint_summary, hne]

/-- C5 witness: `c5_distributions_consistent` on a concrete two-item
set. -/
theorem c5_distributions_witness :
    df_c5 ≠ [] ∧
    (get_sprint_summary df_c5).map (·.total_items)
      = some (((get_work_item_type_distribution df_c5).map (·.count)).sum) ∧
    (get_sprint_summary df_c5).map (·.total_items)
      = some (((get_assignee_workload df_c5).map (·.total_items)).sum) := by
  have h : df_c5 ≠ [] := by decide
  have hc := c5_distributions_consistent df_c5 h
  exact ⟨h, hc.1, hc.2.2.1⟩

/-- C8: with non-negative story points, both completion percentages lie
in [0, 100]; a zero denominator yields 0 via the guarding conditional,
never a division error (in the model, as in Python, the guarded branch
is the only place the division happens). -/
theorem c8_percentages_bounded (df : List WorkItem) (hpts : ∀ w ∈ df, 0 ≤ w.story_points) :
    (get_sprint_summary df).elim True (fun s =>
      0 ≤ s.completion_percentage ∧ s.completion_percentage ≤ 100 ∧
      0 ≤ s.story_points_completion ∧ s.story_points_completion ≤ 100 ∧
      (s.total_items = 0 → s.completion_percentage = 0) ∧
      (s.total_story_points = 0 → s.story_points_completion = 0)) := by
  cases hdf : df.isEmpty with
  | true => simp [get_sprint_summary, hdf]
  | false =>
    have hnil : df ≠ [] := by
      intro e
      rw [e] at hdf
      cases hdf
    have hlen : 0 < df.length := List.length_pos.mpr hnil
    simp only [get_sprint_summary, hdf, Bool.false_eq_true, if_false, Option.elim]
    have hcle : ((df.filter is_completed).length : ℚ) ≤ (df.length : ℚ) := by
      exact_mod_cast List.length_filter_le _ _
    have hcnn : (0 : ℚ) ≤ ((df.filter is_completed).length : ℚ) := by positivity
    have htpos : (0 : ℚ) < (df.length : ℚ) := by exact_mod_cast hlen
    have hfm : ∀ w ∈ df.filter is_completed, 0 ≤ w.story_points :=
      fun w hw => hpts w (List.mem_of_mem_filter hw)
    have hcp0 : 0 ≤ ((df.filter is_completed).map (·.story_points)).sum :=
      sum_points_nonneg _ hfm
    have hcple : ((df.filter is_completed).map (·.story_points)).sum
        ≤ (df.map (·.story_points)).sum := sum_points_filter_le is_completed df hpts
    refine ⟨?_, ?_, ?_, ?_, ?_, ?_⟩
    · rw [if_pos hlen]
      positivity
    · rw [if_pos hlen]
      have h1 : ((df.filter is_completed).length : ℚ) / (df.length : ℚ) ≤ 1 :=
        div_le_one_of_le₀ hcle htpos.le
      calc ((df.filter is_completed).length : ℚ) / (df.length : ℚ) * 100
          ≤ 1 * 100 := mul_le_mul_of_nonneg_right h1 (by norm_num)
        _ = 100 := one_mul _
    · by_cases h0 : 0 < (df.map (·.story_points)).sum
      · rw [if_pos h0]
        positivity
      · rw [if_neg h0]
    · by_cases h0 : 0 < (df.map (·.story_points)).sum
      · rw [if_pos h0]
        have h1 : ((df.filter is_completed).map (·.story_points)).sum
            / (df.map (·.story_points)).sum ≤ 1 := div_le_one_of_le₀ hcple h0.le
        calc ((df.filter is_completed).map (·.story_points)).sum
              / (df.map (·.story_points)).sum * 100
            ≤ 1 * 100 := mul_le_mul_of_nonneg_right h1 (by norm_num)
          _ = 100 := one_mul _
      · rw [if_neg h0]
        norm_num
    · intro h0
      exact absurd h0 (by omega)
    · intro h0
      rw [h0]
      norm_num

/-- C8 witness: `c8_percentages_bounded` on a concrete two-item set
(percentages 50 and 60). -/
theorem c8_percentages_witness :
    (∀ w ∈ df_c8, 0 ≤ w.story_points) ∧
    (get_sprint_summary df_c8).elim True (fun s =>
      0 ≤ s.completion_percentage ∧ s.completion_percentage ≤ 100 ∧
      0 ≤ s.story_points_completion ∧ s.story_points_completion ≤ 100 ∧
      (s.total_items = 0 → s.completion_percentage = 0) ∧
      (s.total_story_points = 0 → s.story_points_completion = 0)) := by
  have hp : ∀ w ∈ df_c8, 0 ≤ w.story_points := by
    intro w hw
    fin_cases hw <;> norm_num [base_item]
  exact ⟨hp, c8_percentages_bounded df_c8 hp⟩

/-- C10: a raw payload without a priority field is normalized to
priority 2, which the label table maps to the "High" bucket and which
passes the `priority <= 2` high-priority filter shared by
`get_important_work_analysis` and the champion scoring. -/
theorem c10_default_priority_high (r : RawWorkItem) (h : r.priority = none) :
    (mkRow r).priority = 2 ∧
    priority_mapping (mkRow r).priority = some "High" ∧
    is_high_priority (mkRow r) = true ∧
    (get_priority_distribution [mkRow r]).map (fun x => (x.priority_label, x.count))
      = [("High", 1)] := by
  have hp : (mkRow r).priority = 2 := by simp [mkRow, h]
  refine ⟨hp, by rw [hp]; rfl, by simp [is_high_priority, hp], ?_⟩
  simp [get_priority_distribution, hp, priority_mapping, List.insertionSort, List.orderedInsert]

/-- C10 witness: `c10_default_priority_high` on a concrete raw payload
with no priority field. -/
theorem c10_default_priority_witness :
    raw_c10.priority = none ∧
    (mkRow raw_c10).priority = 2 ∧
    is_high_priority (mkRow raw_c10) = true := by
  have h := c10_default_priority_high raw_c10 rfl
  exact ⟨rfl, h.1, h.2.2.1⟩

/-- C2 (counterexample): on `df_c2`, Alice and Bob tie at score 73, yet
the ranking lists Bob first and crowns Bob champion — the tie is decided
by the workload table's story-point order (Bob has 20 points to Alice's
16), not by assignee name ascending, which would put Alice first. -/
theorem c2_champion_tie_not_name_ascending :
    (get_sprint_champion_analysis df_c2).map
        (fun c => c.all_scores.map (fun e => (e.assignee, e.score)))
      = some [("Bob", (73 : ℚ)), ("Alice", 73)] ∧
    (get_sprint_champion_analysis df_c2).map (fun c => c.champion.assignee) = some "Bob" := by
  have h1 : get_assignee_workload df_c2 = [bob_row, alice_row] := by
    norm_num +decide [get_assignee_workload, workload_rows, group_keys, key_group, df_c2,
      item_alice, item_bob, base_item, is_completed, completed_states,
      List.insertionSort, List.orderedInsert, workload_points_ge,
      List.dedup_cons_of_not_mem, List.dedup_nil, alice_row, bob_row]
  have h4 : get_sprint_champion_analysis df_c2
      = some { champion := bob_entry, all_scores := [bob_entry, alice_entry] } := by
    simp only [get_sprint_champion_analysis, h1]
    norm_num +decide [champion_entry, df_c2, item_alice, item_bob, base_item,
      bob_row, alice_row, bob_entry, alice_entry, is_completed, completed_states,
      is_high_priority, is_significant, is_bug_type, str_contains_ci, isInfixB,
      isPrefixB, lowerChar, List.insertionSort, List.orderedInsert, champion_score_ge]
  rw [h4]
  constructor
  · simp [bob_entry, alice_entry]
  · simp [bob_entry]

/-- C2 (amended): the champion ranking is descending by score — the
champion is the head of `all_scores` and carries a maximal score — and,
being a pure function of the input, it is deterministic; but equal
scores keep the workload table's order (story points descending, a
stable sort on top of it) rather than falling back to assignee name. -/
theorem c2_champion_ranking_score_descending (df : List WorkItem) :
    (get_sprint_champion_analysis df).elim True (fun c =>
      List.Sorted champion_score_ge c.all_scores ∧
      (∀ e ∈ c.all_scores, e.score ≤ c.champion.score) ∧
      c.all_scores.head? = some c.champion) := by
  simp only [get_sprint_champion_analysis]
  split
  · trivial
  · split
    · trivial
    · split
      · trivial
      · split
        · trivial
        · next c rest heq =>
          simp only [Option.elim]
          have hs : List.Sorted champion_score_ge (c :: rest) := by
            rw [← heq]
            exact List.sorted_insertionSort _ _
          refine ⟨hs, ?_, rfl⟩
          intro e he
          rcases List.mem_cons.mp he with rfl | he'
          · exact le_refl _
          · exact List.rel_of_sorted_cons hs e he'

set_option maxRecDepth 16000 in
/-- C7 witness: `c7_batching_partial_failure` applied to the concrete ID
list 0..249 and a fetch that fails exactly on the middle batch. -/
theorem c7_batching_witness :
    (batchChunks ids_c7).map List.length = [100, 100, 50] ∧
    (get_work_items_details ids_c7 fetch_c7).length = 150 := by
  have h := c7_batching_partial_failure ids_c7 fetch_c7 (ids_c7.take 100) (ids_c7.drop 200)
    (by decide) (by decide) (by decide) (by decide) (by decide) (by decide)
  exact ⟨h.1, h.2.2⟩

end SprintSummaryData
